import Mathlib

/-!  Verification of the request-handling layer of the MSSQL MCP server
(source: src/src/yulin_mssql_mcp/server.py).

Python strings are modelled as lists of characters (PyStr).  The database
driver (pymssql) is an oracle supplied as a structure of fallible
operations; each protocol handler is translated from the source and
returns its Python outcome (a raised exception becomes Except.error)
together with the ordered trace of driver operations it attempted.  -/

namespace MssqlMcp

abbrev PyStr := List Char

/-- Python str.split with a single-character separator: every occurrence
splits, empty parts are kept, and the empty string splits to one empty part. -/
def splitOn (sep : Char) : PyStr → List PyStr
  | [] => [[]]
  | c :: cs =>
    match splitOn sep cs with
    | [] => [[c]]
    | p :: ps => if c = sep then [] :: p :: ps else (c :: p) :: ps

/-- Python str.startswith: strStarts pat s is true when s begins with pat. -/
def strStarts : PyStr → PyStr → Bool
  | [], _ => true
  | _ :: _, [] => false
  | c :: cs, d :: ds => c == d && strStarts cs ds

/-- Python substring containment (the in operator on strings). -/
def isSub (pat : PyStr) : PyStr → Bool
  | [] => pat.isEmpty
  | c :: cs => strStarts pat (c :: cs) || isSub pat cs

/-- Python str.replace: replaces every non-overlapping occurrence of pat,
scanning left to right. -/
def strReplace (pat rep : PyStr) : PyStr → PyStr
  | [] => []
  | c :: cs =>
    if !pat.isEmpty && strStarts pat (c :: cs) then
      rep ++ strReplace pat rep (cs.drop (pat.length - 1))
    else
      c :: strReplace pat rep cs
termination_by s => s.length
decreasing_by
  · simp only [List.length_cons, List.length_drop]
    omega
  · simp only [List.length_cons]
    omega

/-- Python sep.join(parts). -/
def joinWith (sep : PyStr) : List PyStr → PyStr
  | [] => []
  | [p] => p
  | p :: ps => p ++ sep ++ joinWith sep ps

/-- The character class [a-zA-Z0-9_] of the table-name pattern. -/
def isIdentChar (c : Char) : Bool :=
  ('a' ≤ c && c ≤ 'z') || ('A' ≤ c && c ≤ 'Z') || ('0' ≤ c && c ≤ '9') || c == '_'

/-- Recognizer for the body of the table-name pattern: one nonempty run of
identifier characters, optionally a dot and a second nonempty run.  Stated
via splitOn, which is equivalent because identifier characters exclude the
dot: the string must have no dot or exactly one, and every dot-separated
part must be nonempty and made of identifier characters. -/
def matchesCore (s : PyStr) : Bool :=
  match splitOn '.' s with
  | [p] => !p.isEmpty && p.all isIdentChar
  | [p, q] => !p.isEmpty && p.all isIdentChar && !q.isEmpty && q.all isIdentChar
  | _ => false

/-- The source checks the name with re.match against the pattern anchored at
both ends.  Python re.match anchors at the start, and the dollar anchor also
matches just before a newline that ends the string, so a string that is a
valid name followed by one trailing newline is accepted as well. -/
def pyReMatch (s : PyStr) : Bool :=
  matchesCore s || (s.getLast? == some '\n' && matchesCore s.dropLast)

/-- Python exception values relevant to the handlers: ValueError and
RuntimeError raised by the source itself, pymssql.DatabaseError and any
other exception raised by the driver. -/
inductive PyExc where
  | valueError (msg : PyStr)
  | runtimeError (msg : PyStr)
  | dbError (msg : PyStr)
  | otherExc (msg : PyStr)
deriving DecidableEq

/-- Python str(e): the message carried by the exception. -/
def excMsg : PyExc → PyStr
  | .valueError m => m
  | .runtimeError m => m
  | .dbError m => m
  | .otherExc m => m

/-- validate_table_name from the source: reject unless the re.match above
succeeds, then split on the dot and bracket-escape; with two parts each part
is bracketed, otherwise the whole name is bracketed. -/
def validate_table_name (table_name : PyStr) : Except PyExc PyStr :=
  if pyReMatch table_name = false then
    .error (.valueError ("Invalid table name: ".data ++ table_name))
  else
    match splitOn '.' table_name with
    | [p0, p1] => .ok ('[' :: p0 ++ "].[".data ++ p1 ++ [']'])
    | _ => .ok ('[' :: table_name ++ [']'])

example : validate_table_name "users".data = .ok "[users]".data := rfl
example : validate_table_name "dbo.users".data = .ok "[dbo].[users]".data := rfl
example : validate_table_name "users\n".data = .ok "[users\n]".data := rfl
example : (validate_table_name "a.b.c".data).isOk = false := rfl
example : (validate_table_name "".data).isOk = false := rfl
example : (validate_table_name "users; DROP TABLE users--".data).isOk = false := rfl

/-! ## Values returned by the driver in result cells -/

/-- A cell value in a driver row: Python None, an int, or a string. -/
inductive Value where
  | vnull
  | vint (n : Int)
  | vstr (s : PyStr)
deriving DecidableEq

def digitChar (n : Nat) : Char := Char.ofNat (48 + n)

def natDigitsAux : Nat → Nat → PyStr
  | 0, _ => []
  | fuel + 1, n =>
    if n < 10 then [digitChar n]
    else natDigitsAux fuel (n / 10) ++ [digitChar (n % 10)]

def natToStr (n : Nat) : PyStr := natDigitsAux (n + 1) n

def intToStr : Int → PyStr
  | .ofNat n => natToStr n
  | .negSucc m => '-' :: natToStr (m + 1)

/-- Python str() applied to a cell value: None prints as the word None,
ints in decimal, strings as themselves. -/
def pyStrOf : Value → PyStr
  | .vnull => "None".data
  | .vint n => intToStr n
  | .vstr s => s

example : pyStrOf (.vint 1433) = "1433".data := rfl
example : pyStrOf (.vint (-7)) = "-7".data := rfl
example : pyStrOf .vnull = "None".data := rfl

/-! ## Configuration resolution (get_db_config) -/

/-- The process environment as the handlers read it: each field is the
result of os.getenv on the corresponding MSSQL_* variable. -/
structure Env where
  mssql_server : Option PyStr := none
  mssql_user : Option PyStr := none
  mssql_password : Option PyStr := none
  mssql_database : Option PyStr := none
  mssql_port : Option PyStr := none
  mssql_windows_auth : Option PyStr := none
  mssql_command : Option PyStr := none
deriving DecidableEq

/-- os.getenv with a default. -/
def getenvD (v : Option PyStr) (d : PyStr) : PyStr := v.getD d

/-- Python truthiness of an optional string: None and the empty string are
falsy. -/
def truthy : Option PyStr → Bool
  | none => false
  | some s => !s.isEmpty

/-- The port entry of the config dict: it starts as the string from the
environment (default the string 1433) and is overwritten by an int only when
int() parsing succeeds. -/
inductive PortVal where
  | pstr (s : PyStr)
  | pint (n : Int)
deriving DecidableEq

/-- The connection descriptor assembled by get_db_config.  For user and
password, none models the key being absent from the dict (popped under
Windows authentication); a key that is present holds a string. -/
structure DBConfig where
  server : PyStr
  user : Option PyStr
  password : Option PyStr
  database : Option PyStr
  port : PortVal
  tds_version : Option PyStr
deriving DecidableEq

def isPyDigit (c : Char) : Bool := '0' ≤ c && c ≤ '9'

def isPySpace (c : Char) : Bool :=
  c == ' ' || c == '\t' || c == '\n' || c == '\r' || c == Char.ofNat 11 || c == Char.ofNat 12

def digitsTail : PyStr → Bool
  | [] => true
  | '_' :: c :: cs => isPyDigit c && digitsTail cs
  | c :: cs => isPyDigit c && digitsTail cs

def numBody : PyStr → Bool
  | [] => false
  | c :: cs => isPyDigit c && digitsTail cs

def digitsValAux : Nat → PyStr → Nat
  | acc, [] => acc
  | acc, c :: cs =>
    if isPyDigit c then digitsValAux (acc * 10 + (c.toNat - 48)) cs
    else digitsValAux acc cs

/-- Python int() applied to a string: optional surrounding ASCII whitespace,
optional sign, then decimal digits with single underscores allowed between
digits.  Unicode digits and whitespace beyond ASCII are not modelled. -/
def pyIntParse (s : PyStr) : Option Int :=
  let t := ((s.dropWhile isPySpace).reverse.dropWhile isPySpace).reverse
  match t with
  | '-' :: rest => if numBody rest then some (-(digitsValAux 0 rest : Int)) else none
  | '+' :: rest => if numBody rest then some ((digitsValAux 0 rest : Int)) else none
  | rest => if numBody rest then some ((digitsValAux 0 rest : Int)) else none

example : pyIntParse "1433".data = some 1433 := rfl
example : pyIntParse "abc".data = none := rfl
example : pyIntParse "".data = none := rfl
example : pyIntParse " -25 ".data = some (-25) := rfl
example : pyIntParse "1_433".data = some 1433 := rfl
example : pyIntParse "1__4".data = none := rfl

def configErrMsg : PyStr := "Missing required database configuration".data

/-- The Windows-authentication flag: the environment value (default the
string false) lowered equals the string true. -/
def windowsAuthFlag (env : Env) : Bool :=
  (getenvD env.mssql_windows_auth "false".data).map Char.toLower == "true".data

def localdbPat : PyStr := "(localdb)\\".data

/-- The server value: environment with default localhost, then the LocalDB
rewrite, which removes every occurrence of the LocalDB marker and puts a
dot-backslash in front. -/
def baseServer (env : Env) : PyStr :=
  let s := getenvD env.mssql_server "localhost".data
  if strStarts localdbPat s then ".\\".data ++ strReplace localdbPat [] s else s

/-- The port entry: the config dict starts from the raw environment string
(default the string 1433); when the variable is set to a nonempty string the
source tries int() on it and overwrites the entry only on success — on a
ValueError it logs a warning and leaves the raw string in place. -/
def portOf (env : Env) : PortVal :=
  match env.mssql_port with
  | none => .pstr "1433".data
  | some p =>
    if p.isEmpty then .pstr p
    else
      match pyIntParse p with
      | some n => .pint n
      | none => .pstr p

def azureSuffix : PyStr := ".database.windows.net".data

/-- The TDS-version hint: set to 7.4 when the (truthy) server string
contains the Azure SQL domain suffix. -/
def tdsOf (server : PyStr) : Option PyStr :=
  if !server.isEmpty && isSub azureSuffix server then some "7.4".data else none

/-- get_db_config from the source.  The dict is assembled (server, user,
password, database, port, optional tds_version), then under Windows
authentication the database must be truthy and the user and password keys
are popped; under SQL authentication user, password and database must all
be truthy.  A failed check raises ValueError with the fixed message. -/
def get_db_config (env : Env) : Except PyExc DBConfig :=
  let server := baseServer env
  let port := portOf env
  let tds := tdsOf server
  if windowsAuthFlag env then
    if truthy env.mssql_database then
      .ok { server := server, user := none, password := none,
            database := env.mssql_database, port := port, tds_version := tds }
    else .error (.valueError configErrMsg)
  else
    if truthy env.mssql_user && truthy env.mssql_password && truthy env.mssql_database then
      .ok { server := server, user := env.mssql_user, password := env.mssql_password,
            database := env.mssql_database, port := port, tds_version := tds }
    else .error (.valueError configErrMsg)

/-- get_command: the tool name, from the environment with default. -/
def get_command (env : Env) : PyStr := getenvD env.mssql_command "execute_sql".data

/-! ## The driver oracle and the operation trace -/

/-- The pymssql driver as an oracle for one handler call: each operation
either succeeds or raises.  description and rowcount are the cursor
attributes read after a successful execute.  cursor creation and the two
close calls are modelled as infallible. -/
structure Driver where
  connect : DBConfig → Except PyExc Unit
  execute : PyStr → Except PyExc Unit
  description : Option (List PyStr)
  fetchall : Except PyExc (List (List Value))
  rowcount : Int
  commit : Except PyExc Unit
  rollback : Except PyExc Unit

/-- One attempted driver operation, in the order the handler issues them. -/
inductive Ev where
  | evConnect
  | evExecute (q : PyStr)
  | evCommit
  | evRollback
  | evCloseCursor
  | evCloseConn
deriving DecidableEq

structure TextContent where
  text : PyStr
deriving DecidableEq

structure Resource where
  uri : PyStr
  name : PyStr
  mimeType : PyStr
  description : PyStr
deriving DecidableEq

/-- The single-quote character, kept out of string literals. -/
def sq : Char := Char.ofNat 39

/-- The catalog query of list_resources, with its whitespace normalized to
single spaces. -/
def catalogQuery : PyStr :=
  "SELECT TABLE_NAME FROM INFORMATION_SCHEMA.TABLES WHERE TABLE_TYPE = ".data
    ++ [sq] ++ "BASE TABLE".data ++ [sq]

/-- The Resource built for one catalog row: the row is indexed at 0 and the
value is interpolated with str() into the uri, name and description. -/
def mkResource (v : Value) : Resource :=
  { uri := "mssql://".data ++ pyStrOf v ++ "/data".data
  , name := "Table: ".data ++ pyStrOf v
  , mimeType := "text/plain".data
  , description := "Data in table: ".data ++ pyStrOf v }

/-- The resource-building loop of list_resources: indexing an empty row at 0
raises IndexError, which the surrounding except swallows into the empty
list; otherwise each row yields one Resource in order. -/
def buildResources : List (List Value) → Option (List Resource)
  | [] => some []
  | row :: rest =>
    match row with
    | [] => none
    | v :: _ => (buildResources rest).map (fun rs => mkResource v :: rs)

/-! ## The four handlers -/

/-- list_resources: config resolution happens before the try block, so a
ConfigurationError propagates; every failure inside the try (connect, the
catalog query, the fetch, or the building loop) is swallowed and the empty
list is returned. -/
def list_resources (drv : Driver) (env : Env) :
    Except PyExc (List Resource) × List Ev :=
  match get_db_config env with
  | .error e => (.error e, [])
  | .ok config =>
    match drv.connect config with
    | .error _ => (.ok [], [.evConnect])
    | .ok _ =>
      match drv.execute catalogQuery with
      | .error _ => (.ok [], [.evConnect, .evExecute catalogQuery])
      | .ok _ =>
        match drv.fetchall with
        | .error _ => (.ok [], [.evConnect, .evExecute catalogQuery])
        | .ok tables =>
          match buildResources tables with
          | none => (.ok [], [.evConnect, .evExecute catalogQuery])
          | some rs =>
            (.ok rs, [.evConnect, .evExecute catalogQuery, .evCloseCursor, .evCloseConn])

/-- The read_resource row formatting: the header is the comma-joined column
names and each row is comma-joined with plain str() on every cell, so a
None cell prints as the word None on this path. -/
def formatReadRows (cols : List PyStr) (rows : List (List Value)) : PyStr :=
  joinWith ['\n'] (joinWith [','] cols :: rows.map (fun r => joinWith [','] (r.map pyStrOf)))

/-- Stand-in for the CPython message raised when iterating None (the cursor
description of a non-row statement); its exact wording is irrelevant here. -/
def noneIterMsg : PyStr := "NoneType object is not iterable".data

/-- The body of read_resource from the validation onward.  The try block of
the source wraps validate_table_name together with the driver calls, and
its except clause re-raises every exception as
RuntimeError(Database error: str(e)) — so a ValueError from validation is
wrapped exactly like a driver failure. -/
def read_table (drv : Driver) (config : DBConfig) (table : PyStr) :
    Except PyExc PyStr × List Ev :=
  match validate_table_name table with
  | .error e =>
    (.error (.runtimeError ("Database error: ".data ++ excMsg e)), [])
  | .ok safe_table =>
    match drv.connect config with
    | .error e =>
      (.error (.runtimeError ("Database error: ".data ++ excMsg e)), [.evConnect])
    | .ok _ =>
      let q := "SELECT TOP 100 * FROM ".data ++ safe_table
      match drv.execute q with
      | .error e =>
        (.error (.runtimeError ("Database error: ".data ++ excMsg e)),
         [.evConnect, .evExecute q])
      | .ok _ =>
        match drv.description with
        | none =>
          (.error (.runtimeError ("Database error: ".data ++ noneIterMsg)),
           [.evConnect, .evExecute q])
        | some cols =>
          match drv.fetchall with
          | .error e =>
            (.error (.runtimeError ("Database error: ".data ++ excMsg e)),
             [.evConnect, .evExecute q])
          | .ok rows =>
            (.ok (formatReadRows cols rows),
             [.evConnect, .evExecute q, .evCloseCursor, .evCloseConn])

def schemeChars : PyStr := "mssql://".data

/-- read_resource: config first (errors propagate), then the scheme check
raising ValueError, then the table segment is the text between the scheme
prefix and the first slash (the whole remainder when there is no slash),
everything after that first slash being ignored. -/
def read_resource (drv : Driver) (env : Env) (uri : PyStr) :
    Except PyExc PyStr × List Ev :=
  match get_db_config env with
  | .error e => (.error e, [])
  | .ok config =>
    if strStarts schemeChars uri = false then
      (.error (.valueError ("Invalid URI scheme: ".data ++ uri)), [])
    else
      read_table drv config ((splitOn '/' (uri.drop 8)).headD [])

/-- The inner cell loop of the call_tool CSV formatting: a None cell becomes
the word NULL, every other cell goes through str(). -/
def toolCells : List Value → List PyStr
  | [] => []
  | v :: vs => (if v = .vnull then "NULL".data else pyStrOf v) :: toolCells vs

/-- The outer row loop of the call_tool CSV formatting. -/
def toolLines : List (List Value) → List PyStr
  | [] => []
  | r :: rs => joinWith [','] (toolCells r) :: toolLines rs

/-- The call_tool row formatting: header line then one line per row. -/
def formatToolRows (cols : List PyStr) (rows : List (List Value)) : PyStr :=
  joinWith ['\n'] (joinWith [','] cols :: toolLines rows)

/-- The except clauses of call_tool.  pymssql.DatabaseError triggers a
rollback when a connection was opened — and the rollback call is not
protected, so an exception raised by rollback itself propagates out of the
handler; the text result carries the Database error marker.  Every other
exception is turned into a text result with the Error executing query
marker, without any rollback. -/
def handleToolExc (drv : Driver) (connSet : Bool) (e : PyExc) :
    Except PyExc (List TextContent) × List Ev :=
  match e with
  | .dbError m =>
    if connSet then
      match drv.rollback with
      | .ok _ => (.ok [{ text := "Database error: ".data ++ m }], [.evRollback])
      | .error e2 => (.error e2, [.evRollback])
    else (.ok [{ text := "Database error: ".data ++ m }], [])
  | e2 => (.ok [{ text := "Error executing query: ".data ++ excMsg e2 }], [])

/-- The try block of call_tool after a successful connect: execute, then
classify by cursor.description.  A row schema leads to fetchall and CSV
formatting (with the explicit zero-rows message); no row schema leads to
commit and the affected-rows message, where a rowcount of minus one means
the driver reported no count. -/
def call_tool_body (drv : Driver) (q : PyStr) :
    Except PyExc (List TextContent) × List Ev :=
  match drv.execute q with
  | .error e =>
    let (r, t) := handleToolExc drv true e
    (r, .evExecute q :: t)
  | .ok _ =>
    match drv.description with
    | some cols =>
      match drv.fetchall with
      | .error e =>
        let (r, t) := handleToolExc drv true e
        (r, .evExecute q :: t)
      | .ok rows =>
        if rows.isEmpty then
          (.ok [{ text := "Query returned 0 rows.\nColumns: ".data ++ joinWith ", ".data cols }],
           [.evExecute q])
        else
          (.ok [{ text := formatToolRows cols rows }], [.evExecute q])
    | none =>
      match drv.commit with
      | .error e =>
        let (r, t) := handleToolExc drv true e
        (r, .evExecute q :: .evCommit :: t)
      | .ok _ =>
        if drv.rowcount = -1 then
          (.ok [{ text := "Query executed successfully.".data }], [.evExecute q, .evCommit])
        else
          (.ok [{ text := "Query executed successfully. Rows affected: ".data
                    ++ intToStr drv.rowcount }],
           [.evExecute q, .evCommit])

/-- call_tool: config resolution (errors propagate), the two upfront
validation errors (unknown tool name; absent or empty query) raised as
ValueError before any driver call, then the try block.  The finally clause
closes cursor and connection whenever the connect succeeded, on every exit
path. -/
def call_tool (drv : Driver) (env : Env) (name : PyStr) (query : Option PyStr) :
    Except PyExc (List TextContent) × List Ev :=
  match get_db_config env with
  | .error e => (.error e, [])
  | .ok config =>
    if name = get_command env then
      match query with
      | none => (.error (.valueError "Query is required".data), [])
      | some q =>
        if q.isEmpty then (.error (.valueError "Query is required".data), [])
        else
          match drv.connect config with
          | .error e =>
            let (r, t) := handleToolExc drv false e
            (r, .evConnect :: t)
          | .ok _ =>
            let (r, t) := call_tool_body drv q
            (r, .evConnect :: (t ++ [.evCloseCursor, .evCloseConn]))
    else (.error (.valueError ("Unknown tool: ".data ++ name)), [])

/-! ## Concrete fixtures -/

/-- Discriminator used to state that a handler outcome is not a ValueError. -/
def isValueErrorRes (r : Except PyExc PyStr) : Bool :=
  match r with
  | .error (.valueError _) => true
  | _ => false

/-- Discriminator for pymssql.DatabaseError among driver exceptions. -/
def isDbExc : PyExc → Bool
  | .dbError _ => true
  | _ => false

/-- SQL-auth environment with user, password and database set. -/
def envA : Env :=
  { mssql_user := some "test".data, mssql_password := some "test".data,
    mssql_database := some "testdb".data }

/-- The descriptor resolved from envA. -/
def cfgA : DBConfig :=
  { server := "localhost".data, user := some "test".data, password := some "test".data,
    database := some "testdb".data, port := .pstr "1433".data, tds_version := none }

/-- A driver on which every operation succeeds and yields nothing. -/
def drvAllOk : Driver :=
  { connect := fun _ => .ok (), execute := fun _ => .ok (), description := none,
    fetchall := .ok [], rowcount := -1, commit := .ok (), rollback := .ok () }

/-- Driver whose execute raises a DatabaseError and whose rollback raises too. -/
def drvRollbackBoom : Driver :=
  { drvAllOk with
    execute := fun _ => .error (.dbError "deadlock".data),
    rollback := .error (.dbError "rollback failed".data) }

/-- Driver whose execute raises a DatabaseError; rollback succeeds. -/
def drvExecBoom : Driver :=
  { drvAllOk with execute := fun _ => .error (.dbError "boom".data) }

/-- Driver whose catalog fetch returns one table named users. -/
def drvUsers : Driver :=
  { drvAllOk with fetchall := .ok [[.vstr "users".data]] }

def colsIdName : List PyStr := ["id".data, "name".data]

def rowsEx : List (List Value) := [[.vint 1, .vstr "a".data], [.vint 2, .vnull]]

/-- Driver returning the two-column, two-row result of the spec example. -/
def drvRowsEx : Driver :=
  { drvAllOk with description := some colsIdName, fetchall := .ok rowsEx }

/-- Driver for a mutating statement reporting three affected rows. -/
def drvRows3 : Driver := { drvAllOk with rowcount := 3 }

/-- Windows-auth environment with credentials still set in the environment. -/
def envWin : Env :=
  { mssql_user := some "u".data, mssql_password := some "p".data,
    mssql_database := some "db".data, mssql_windows_auth := some "TRUE".data }

/-- Windows-auth environment with no database. -/
def envWinNoDb : Env := { mssql_windows_auth := some "true".data }

/-- SQL-auth environment missing the password and the database. -/
def envSqlMissing : Env := { mssql_user := some "u".data }

/-- SQL-auth environment with an unparseable port. -/
def envPortBad : Env :=
  { mssql_user := some "test".data, mssql_password := some "test".data,
    mssql_database := some "testdb".data, mssql_port := some "abc".data }

example : get_db_config envA = .ok cfgA := rfl
example : get_command envA = "execute_sql".data := rfl
example : (read_resource drvRowsEx envA "mssql://users/data".data).fst
    = .ok "id,name\n1,a\n2,None".data := rfl
example : (call_tool drvRowsEx envA "execute_sql".data (some "SELECT x FROM users".data)).fst
    = .ok [{ text := "id,name\n1,a\n2,NULL".data }] := rfl

/-! ## Helper lemmas -/

theorem isEmpty_false_of_ne {α : Type} {l : List α} (h : l ≠ []) : l.isEmpty = false := by
  cases l with
  | nil => exact absurd rfl h
  | cons c cs => rfl

theorem splitOn_ne_nil (sep : Char) (l : PyStr) : splitOn sep l ≠ [] := by
  cases l with
  | nil => simp [splitOn]
  | cons c cs =>
    simp only [splitOn]
    split
    · simp
    · split <;> simp

theorem splitOn_eq_single (sep : Char) (l : PyStr) (h : ∀ c ∈ l, c ≠ sep) :
    splitOn sep l = [l] := by
  induction l with
  | nil => rfl
  | cons c cs ih =>
    have hc : c ≠ sep := h c (by simp)
    have ih2 : splitOn sep cs = [cs] := ih (fun d hd => h d (by simp [hd]))
    simp [splitOn, ih2, hc]

theorem splitOn_sep_append (sep : Char) (p1 p2 : PyStr) (h : ∀ c ∈ p1, c ≠ sep) :
    splitOn sep (p1 ++ sep :: p2) = p1 :: splitOn sep p2 := by
  induction p1 with
  | nil =>
    simp only [List.nil_append, splitOn]
    cases hp : splitOn sep p2 with
    | nil => exact absurd hp (splitOn_ne_nil sep p2)
    | cons p ps => simp
  | cons c cs ih =>
    have hc : c ≠ sep := h c (by simp)
    have ih2 := ih (fun d hd => h d (by simp [hd]))
    simp [splitOn, ih2, hc]

theorem splitOn_two (sep : Char) (p1 p2 : PyStr)
    (h1 : ∀ c ∈ p1, c ≠ sep) (h2 : ∀ c ∈ p2, c ≠ sep) :
    splitOn sep (p1 ++ sep :: p2) = [p1, p2] := by
  rw [splitOn_sep_append sep p1 p2 h1, splitOn_eq_single sep p2 h2]

theorem identChar_ne_dot {c : Char} (h : isIdentChar c = true) : c ≠ '.' := by
  intro he
  rw [he] at h
  exact absurd h (by decide)

theorem strStarts_append (p x : PyStr) : strStarts p (p ++ x) = true := by
  induction p with
  | nil => rfl
  | cons c cs ih => simp [strStarts, ih]

theorem drop_scheme (x : PyStr) : (schemeChars ++ x).drop 8 = x := by
  have h8 : (8 : Nat) = schemeChars.length := rfl
  rw [h8, List.drop_left]

theorem toolCells_eq_map (r : List Value) :
    toolCells r = r.map (fun v => if v = .vnull then "NULL".data else pyStrOf v) := by
  induction r with
  | nil => rfl
  | cons v vs ih => simp [toolCells, ih]

theorem toolLines_eq_map (rows : List (List Value)) :
    toolLines rows =
      rows.map (fun r =>
        joinWith [','] (r.map (fun v => if v = .vnull then "NULL".data else pyStrOf v))) := by
  induction rows with
  | nil => rfl
  | cons r rs ih => simp [toolLines, ih, toolCells_eq_map]

theorem buildResources_eq (tables : List (List Value)) (h : ∀ r ∈ tables, r ≠ []) :
    buildResources tables = some (tables.map (fun r => mkResource (r.headD .vnull))) := by
  induction tables with
  | nil => rfl
  | cons r rs ih =>
    cases r with
    | nil => exact absurd rfl (h _ (by simp))
    | cons v vs =>
      simp [buildResources, ih (fun x hx => h x (by simp [hx]))]

/-! ## Claim theorems -/

/-- Claim C1 (code bug): the claim says every string containing a character
outside the class [A-Za-z0-9_.] is rejected by validate_table_name, but the
dollar anchor of Python re also matches just before a trailing newline, so
the input users followed by a newline — which contains the newline
character, outside the class and different from the dot — is accepted and
escaped to a bracketed identifier instead of failing. -/
theorem C1_trailing_newline_accepted :
    isIdentChar '\n' = false ∧ '\n' ≠ '.' ∧
    validate_table_name "users\n".data = .ok "[users\n]".data :=
  ⟨by decide, by decide, rfl⟩

/-- Claim C2: every name of the shape part or part.part over nonempty runs
of [A-Za-z0-9_] characters is accepted by validate_table_name and escaped
to the bracketed form, each part wrapped in square brackets and otherwise
unchanged. -/
theorem C2_validate_valid_identifiers (p1 p2 : PyStr)
    (h1 : p1 ≠ []) (h2 : p2 ≠ [])
    (ha : p1.all isIdentChar = true) (hb : p2.all isIdentChar = true) :
    validate_table_name p1 = .ok ('[' :: p1 ++ [']']) ∧
    validate_table_name (p1 ++ '.' :: p2) = .ok ('[' :: p1 ++ "].[".data ++ p2 ++ [']']) := by
  have hd1 : ∀ c ∈ p1, c ≠ '.' :=
    fun c hc => identChar_ne_dot (List.all_eq_true.mp ha c hc)
  have hd2 : ∀ c ∈ p2, c ≠ '.' :=
    fun c hc => identChar_ne_dot (List.all_eq_true.mp hb c hc)
  have hs1 : splitOn '.' p1 = [p1] := splitOn_eq_single '.' p1 hd1
  have hs2 : splitOn '.' (p1 ++ '.' :: p2) = [p1, p2] := splitOn_two '.' p1 p2 hd1 hd2
  have he1 : p1.isEmpty = false := isEmpty_false_of_ne h1
  have he2 : p2.isEmpty = false := isEmpty_false_of_ne h2
  have hm1 : matchesCore p1 = true := by
    simp [matchesCore, hs1, he1, ha]
  have hm2 : matchesCore (p1 ++ '.' :: p2) = true := by
    simp [matchesCore, hs2, he1, he2, ha, hb]
  have hr1 : pyReMatch p1 = true := by simp [pyReMatch, hm1]
  have hr2 : pyReMatch (p1 ++ '.' :: p2) = true := by simp [pyReMatch, hm2]
  constructor
  · simp [validate_table_name, hr1, hs1]
  · simp [validate_table_name, hr2, hs2]

/-- Witness for C2 at the names users and dbo.users. -/
theorem C2_witness :
    validate_table_name "users".data = .ok "[users]".data ∧
    validate_table_name "dbo.users".data = .ok "[dbo].[users]".data := by
  constructor
  · exact (C2_validate_valid_identifiers "users".data "x".data
      (by decide) (by decide) (by decide) (by decide)).1
  · exact (C2_validate_valid_identifiers "dbo".data "users".data
      (by decide) (by decide) (by decide) (by decide)).2

/-- Claim C3 counterexample: on the injection-shaped uri the failure raised
by read_resource is the RuntimeError wrapper with the Database error prefix —
the same failure kind used for driver errors — and not a ValueError, because
the try block of the source wraps the validation call and its except clause
re-wraps every exception.  So the claimed distinction from
DatabaseOperationError does not hold. -/
theorem C3_counterexample :
    (read_resource drvAllOk envA "mssql://users; DROP TABLE users--/data".data).fst
      = .error (.runtimeError "Database error: Invalid table name: users; DROP TABLE users--".data) ∧
    isValueErrorRes
      (read_resource drvAllOk envA "mssql://users; DROP TABLE users--/data".data).fst = false :=
  ⟨rfl, rfl⟩

/-- Claim C3 amended: on a scheme-matching uri whose table segment fails
validation, read_resource fails — with the invalid-identifier message
wrapped into the generic database-error failure kind rather than a failure
distinct from it — and it issues no driver operation whatsoever: no
connection is opened and no query text reaches the driver (the trace is
empty). -/
theorem C3_invalid_table_wrapped (drv : Driver) (env : Env) (cfg : DBConfig) (uri : PyStr)
    (hc : get_db_config env = .ok cfg)
    (hpre : strStarts schemeChars uri = true)
    (hbad : pyReMatch ((splitOn '/' (uri.drop 8)).headD []) = false) :
    read_resource drv env uri =
      (.error (.runtimeError ("Database error: Invalid table name: ".data
          ++ (splitOn '/' (uri.drop 8)).headD [])), []) := by
  have hbad2 : pyReMatch ((splitOn '/' (uri.drop 8)).head?.getD []) = false := by
    simpa using hbad
  simp [read_resource, hc, hpre, read_table, validate_table_name, hbad2, excMsg]

/-- Witness for C3 amended at the injection-shaped uri. -/
theorem C3_witness :
    read_resource drvAllOk envA "mssql://users; DROP TABLE users--/data".data =
      (.error (.runtimeError
          "Database error: Invalid table name: users; DROP TABLE users--".data), []) := by
  exact C3_invalid_table_wrapped drvAllOk envA cfgA
    "mssql://users; DROP TABLE users--/data".data rfl (by decide) (by decide)

/-- Claim C4 counterexample: a valid tool name, a nonempty query, and a
driver whose execute raises a DatabaseError and whose rollback raises too.
The except clause of the source calls conn.rollback() unprotected, so the
rollback exception propagates: call_tool raises instead of returning a text
result, contradicting both the swallowed-rollback-errors part and the
never-raises part of the claim (the finally clause still closes cursor and
connection, as the trace shows). -/
theorem C4_counterexample :
    call_tool drvRollbackBoom envA "execute_sql".data (some "UPDATE t SET x = 1".data)
      = (.error (.dbError "rollback failed".data),
         [.evConnect, .evExecute "UPDATE t SET x = 1".data, .evRollback,
          .evCloseCursor, .evCloseConn]) := rfl

/-- Claim C4 amended: when the driver raises during execution of a valid,
nonempty query, call_tool distinguishes the exception kind.  A
non-DatabaseError exception yields a single text result with the error
marker and no rollback is attempted.  A DatabaseError triggers a rollback —
whose own errors are NOT swallowed: if the rollback succeeds the handler
returns a single text result with the error marker, and if the rollback
raises, call_tool raises that exception.  Upfront validation errors still
propagate as failures. -/
theorem C4_execution_error_handling (drv : Driver) (env : Env) (cfg : DBConfig)
    (q : PyStr) (e : PyExc)
    (hc : get_db_config env = .ok cfg) (hq : q ≠ [])
    (hconn : drv.connect cfg = .ok ())
    (hexec : drv.execute q = .error e) :
    (isDbExc e = false →
      call_tool drv env (get_command env) (some q) =
        (.ok [{ text := "Error executing query: ".data ++ excMsg e }],
         [.evConnect, .evExecute q, .evCloseCursor, .evCloseConn])) ∧
    (∀ m, e = .dbError m → drv.rollback = .ok () →
      call_tool drv env (get_command env) (some q) =
        (.ok [{ text := "Database error: ".data ++ m }],
         [.evConnect, .evExecute q, .evRollback, .evCloseCursor, .evCloseConn])) ∧
    (∀ m e2, e = .dbError m → drv.rollback = .error e2 →
      (call_tool drv env (get_command env) (some q)).fst = .error e2) := by
  have hqe : q.isEmpty = false := isEmpty_false_of_ne hq
  refine ⟨?_, ?_, ?_⟩
  · intro hnd
    cases e with
    | dbError m => simp [isDbExc] at hnd
    | valueError m =>
      simp [call_tool, hc, hqe, hconn, call_tool_body, hexec, handleToolExc, excMsg]
    | runtimeError m =>
      simp [call_tool, hc, hqe, hconn, call_tool_body, hexec, handleToolExc, excMsg]
    | otherExc m =>
      simp [call_tool, hc, hqe, hconn, call_tool_body, hexec, handleToolExc, excMsg]
  · intro m hm hrb
    subst hm
    simp [call_tool, hc, hqe, hconn, call_tool_body, hexec, handleToolExc, hrb]
  · intro m e2 hm hrb
    subst hm
    simp [call_tool, hc, hqe, hconn, call_tool_body, hexec, handleToolExc, hrb]

/-- Witness for C4 amended: execute raises a DatabaseError and rollback
succeeds, so the call returns the single error text result and the trace
records the rollback. -/
theorem C4_witness :
    call_tool drvExecBoom envA "execute_sql".data (some "DELETE FROM t".data) =
      (.ok [{ text := "Database error: boom".data }],
       [.evConnect, .evExecute "DELETE FROM t".data, .evRollback,
        .evCloseCursor, .evCloseConn]) := by
  exact (C4_execution_error_handling drvExecBoom envA cfgA "DELETE FROM t".data
      (.dbError "boom".data) rfl (by decide) rfl rfl).2.1 "boom".data rfl rfl

/-- Claim C5: under a resolved configuration, every driver failure inside
list_resources — connection open, catalog query, or row fetch — produces
the empty list without raising, and when every driver step succeeds the
handler returns one Resource per catalog row (each row indexed at its first
column), with uri mssql://table/data. -/
theorem C5_list_resources (env : Env) (cfg : DBConfig) (drv : Driver)
    (hc : get_db_config env = .ok cfg) :
    ((∀ e, drv.connect cfg = .error e → (list_resources drv env).fst = .ok []) ∧
     (∀ e, drv.execute catalogQuery = .error e → (list_resources drv env).fst = .ok []) ∧
     (∀ e, drv.fetchall = .error e → (list_resources drv env).fst = .ok []) ∧
     (∀ tables, drv.connect cfg = .ok () → drv.execute catalogQuery = .ok () →
        drv.fetchall = .ok tables → (∀ r ∈ tables, r ≠ []) →
        (list_resources drv env).fst =
          .ok (tables.map (fun r => mkResource (r.headD .vnull))))) := by
  refine ⟨?_, ?_, ?_, ?_⟩
  · intro e he
    simp [list_resources, hc, he]
  · intro e he
    cases hcn : drv.connect cfg with
    | error e0 => simp [list_resources, hc, hcn]
    | ok u => cases u; simp [list_resources, hc, hcn, he]
  · intro e he
    cases hcn : drv.connect cfg with
    | error e0 => simp [list_resources, hc, hcn]
    | ok u =>
      cases u
      cases hex : drv.execute catalogQuery with
      | error e1 => simp [list_resources, hc, hcn, hex]
      | ok v => cases v; simp [list_resources, hc, hcn, hex, he]
  · intro tables hcn hex hf hne
    simp [list_resources, hc, hcn, hex, hf, buildResources_eq tables hne]

/-- Witness for C5: a driver whose catalog returns the single table users
yields exactly one resource. -/
theorem C5_witness :
    (list_resources drvUsers envA).fst = .ok [mkResource (.vstr "users".data)] := by
  exact (C5_list_resources envA cfgA drvUsers rfl).2.2.2
    [[.vstr "users".data]] rfl rfl rfl (by decide)

/-- Claim C6: when the executed statement yields no row schema (cursor
description is None) and commit succeeds, call_tool commits the
transaction (the trace records the commit) and returns exactly the
affected-rows message with the driver-reported count, or the count-free
success message when the driver reports no count (rowcount of minus
one). -/
theorem C6_affected_rows (env : Env) (cfg : DBConfig) (drv : Driver) (q : PyStr)
    (hc : get_db_config env = .ok cfg) (hq : q ≠ [])
    (hconn : drv.connect cfg = .ok ()) (hexec : drv.execute q = .ok ())
    (hdesc : drv.description = none) (hcommit : drv.commit = .ok ()) :
    (call_tool drv env (get_command env) (some q)).fst =
      .ok [{ text :=
        if drv.rowcount = -1 then "Query executed successfully.".data
        else "Query executed successfully. Rows affected: ".data ++ intToStr drv.rowcount }] ∧
    Ev.evCommit ∈ (call_tool drv env (get_command env) (some q)).snd := by
  have hqe : q.isEmpty = false := isEmpty_false_of_ne hq
  by_cases hrc : drv.rowcount = -1
  · constructor <;>
      simp [call_tool, hc, hqe, hconn, call_tool_body, hexec, hdesc, hcommit, hrc]
  · constructor <;>
      simp [call_tool, hc, hqe, hconn, call_tool_body, hexec, hdesc, hcommit, hrc]

/-- Witness for C6 with a definite count of three. -/
theorem C6_witness :
    (call_tool drvRows3 envA "execute_sql".data (some "DELETE FROM t".data)).fst =
      .ok [{ text := "Query executed successfully. Rows affected: 3".data }] := by
  have h := (C6_affected_rows envA cfgA drvRows3 "DELETE FROM t".data
      rfl (by decide) rfl rfl rfl rfl).1
  simpa using h

/-- Claim C7 counterexample: the spec example evaluated on the read_resource
path: the None cell renders as the word None, not NULL, because this path
formats cells with plain str() — so the claim that both paths yield the
NULL rendering is false. -/
theorem C7_counterexample :
    (read_resource drvRowsEx envA "mssql://users/data".data).fst
      = .ok "id,name\n1,a\n2,None".data ∧
    "id,name\n1,a\n2,None".data ≠ "id,name\n1,a\n2,NULL".data :=
  ⟨rfl, by decide⟩

/-- Claim C7 amended: for every row result, the first line is the
comma-joined column names and each subsequent line the comma-joined
stringified cells in original order on both paths; a null cell renders as
NULL on the call_tool path but as None (plain str) on the read_resource
path. -/
theorem C7_row_formatting (env : Env) (cfg : DBConfig) (drv : Driver) (q : PyStr)
    (cols : List PyStr) (rows : List (List Value))
    (hc : get_db_config env = .ok cfg) (hq : q ≠ [])
    (hconn : drv.connect cfg = .ok ()) (hexec : ∀ s, drv.execute s = .ok ())
    (hdesc : drv.description = some cols) (hfetch : drv.fetchall = .ok rows)
    (hrows : rows ≠ []) :
    (call_tool drv env (get_command env) (some q)).fst =
      .ok [{ text := joinWith ['\n'] (joinWith [','] cols ::
          rows.map (fun r => joinWith [','] (r.map (fun v =>
            if v = .vnull then "NULL".data else pyStrOf v)))) }] ∧
    (read_resource drv env "mssql://users/data".data).fst =
      .ok (joinWith ['\n'] (joinWith [','] cols ::
          rows.map (fun r => joinWith [','] (r.map pyStrOf)))) := by
  have hqe : q.isEmpty = false := isEmpty_false_of_ne hq
  have hre : rows.isEmpty = false := isEmpty_false_of_ne hrows
  constructor
  · simp [call_tool, hc, hqe, hconn, call_tool_body, hexec q, hdesc, hfetch, hre,
      formatToolRows, toolLines_eq_map]
  · have hpre : strStarts schemeChars "mssql://users/data".data = true := by decide
    have htab : (splitOn '/' ['u', 's', 'e', 'r', 's', '/', 'd', 'a', 't', 'a']).head?.getD
        ([] : PyStr) = "users".data := rfl
    have hval : validate_table_name "users".data = .ok "[users]".data := rfl
    simp [read_resource, hc, hpre, htab, read_table, hval, hconn,
      hexec, hdesc, hfetch, formatReadRows]

/-- Witness for C7 amended at the spec example: columns id and name, rows
(1, a) and (2, None). -/
theorem C7_witness :
    (call_tool drvRowsEx envA "execute_sql".data (some "SELECT x FROM users".data)).fst =
      .ok [{ text := "id,name\n1,a\n2,NULL".data }] ∧
    (read_resource drvRowsEx envA "mssql://users/data".data).fst =
      .ok "id,name\n1,a\n2,None".data := by
  have h := C7_row_formatting envA cfgA drvRowsEx "SELECT x FROM users".data
    colsIdName rowsEx rfl (by decide) rfl (fun s => rfl) rfl rfl (by decide)
  exact ⟨h.1, h.2⟩

/-- Claim C8: under the Windows-authentication flag the resolved descriptor
carries no user and no password keys (whatever the environment holds) and
only the database is required, its absence raising the configuration
error; in SQL-authentication mode (the default) resolution succeeds exactly
when user, password and database are all truthy, and otherwise fails with
the fixed missing-configuration message. -/
theorem C8_auth_modes (env : Env) :
    (windowsAuthFlag env = true →
      (truthy env.mssql_database = true →
        ∃ cfg, get_db_config env = .ok cfg ∧ cfg.user = none ∧ cfg.password = none) ∧
      (truthy env.mssql_database = false →
        get_db_config env = .error (.valueError configErrMsg))) ∧
    (windowsAuthFlag env = false →
      ((truthy env.mssql_user && truthy env.mssql_password && truthy env.mssql_database) = true →
        ∃ cfg, get_db_config env = .ok cfg) ∧
      ((truthy env.mssql_user && truthy env.mssql_password && truthy env.mssql_database) = false →
        get_db_config env = .error (.valueError configErrMsg))) := by
  constructor
  · intro hw
    constructor
    · intro hdb
      refine ⟨{ server := baseServer env, user := none, password := none,
                database := env.mssql_database, port := portOf env,
                tds_version := tdsOf (baseServer env) }, ?_, rfl, rfl⟩
      simp [get_db_config, hw, hdb]
    · intro hdb
      simp [get_db_config, hw, hdb]
  · intro hw
    constructor
    · intro hall
      refine ⟨{ server := baseServer env, user := env.mssql_user,
                password := env.mssql_password, database := env.mssql_database,
                port := portOf env, tds_version := tdsOf (baseServer env) }, ?_⟩
      simp [get_db_config, hw, hall]
    · intro hall
      simp [get_db_config, hw, hall]

/-- Witness for C8: Windows auth (flag spelled TRUE) with credentials set in
the environment yields a descriptor without them; Windows auth without a
database fails; SQL auth with only a user fails. -/
theorem C8_witness :
    windowsAuthFlag envWin = true ∧
    (∃ cfg, get_db_config envWin = .ok cfg ∧ cfg.user = none ∧ cfg.password = none) ∧
    get_db_config envWinNoDb = .error (.valueError configErrMsg) ∧
    get_db_config envSqlMissing = .error (.valueError configErrMsg) := by
  refine ⟨rfl, ?_, ?_, ?_⟩
  · exact ((C8_auth_modes envWin).1 rfl).1 rfl
  · exact ((C8_auth_modes envWinNoDb).1 rfl).2 rfl
  · exact ((C8_auth_modes envSqlMissing).2 rfl).2 rfl

/-- Claim C9 (code bug): with the port variable set to an unparseable
string, get_db_config does log-and-continue (it never fails), but the
returned descriptor does NOT carry the default port 1433: the port entry
keeps the raw invalid string, although the warning in the source claims
the default will be used. -/
theorem C9_port_kept_raw :
    pyIntParse "abc".data = none ∧
    get_db_config envPortBad =
      .ok { server := "localhost".data, user := some "test".data,
            password := some "test".data, database := some "testdb".data,
            port := .pstr "abc".data, tds_version := none } ∧
    PortVal.pstr "abc".data ≠ PortVal.pint 1433 :=
  ⟨rfl, rfl, by decide⟩

/-- Claim C10: for a scheme-matching uri, read_resource takes as table name
exactly the text between the scheme prefix and the first following slash
(the whole remainder when no slash follows) and ignores everything after
that slash: a uri without the data suffix and a uri with extra path
segments behave exactly like the canonical table/data uri. -/
theorem C10_uri_table_extraction (drv : Driver) (env : Env) (t extra : PyStr)
    (h : ∀ c ∈ t, c ≠ '/') :
    read_resource drv env (schemeChars ++ (t ++ '/' :: extra)) =
      read_resource drv env (schemeChars ++ (t ++ "/data".data)) ∧
    read_resource drv env (schemeChars ++ t) =
      read_resource drv env (schemeChars ++ (t ++ "/data".data)) := by
  have hpre : ∀ (x : PyStr), strStarts schemeChars (schemeChars ++ x) = true :=
    fun x => strStarts_append schemeChars x
  have ht1 : (splitOn '/' (t ++ '/' :: extra)).head?.getD ([] : PyStr) = t := by
    rw [splitOn_sep_append '/' t extra h]
    rfl
  have ht2 : (splitOn '/' (t ++ ['/', 'd', 'a', 't', 'a'])).head?.getD ([] : PyStr) = t := by
    rw [splitOn_sep_append '/' t ['d', 'a', 't', 'a'] h]
    rfl
  have ht3 : (splitOn '/' t).head?.getD ([] : PyStr) = t := by
    rw [splitOn_eq_single '/' t h]
    rfl
  cases hcfg : get_db_config env with
  | error e => constructor <;> simp [read_resource, hcfg]
  | ok cfg =>
    constructor <;>
      simp [read_resource, hcfg, hpre, drop_scheme, ht1, ht2, ht3]

/-- Witness for C10 at the table users: the bare uri and the
extra-segment uri read exactly like the canonical one. -/
theorem C10_witness :
    read_resource drvAllOk envA "mssql://users/data/extra".data =
      read_resource drvAllOk envA "mssql://users/data".data ∧
    read_resource drvAllOk envA "mssql://users".data =
      read_resource drvAllOk envA "mssql://users/data".data := by
  have h := C10_uri_table_extraction drvAllOk envA "users".data "data/extra".data (by decide)
  exact ⟨h.1, h.2⟩

end MssqlMcp
